import Mathlib

/-!
# Verification of the qudi GUI modules

Shallow embedding of the two GUI source files of this repository:

* `gui/LaserScanningGui.py` — the laser-scanning spectrum viewer
  (`LaserScanningGui`), and
* `gui/confocal/confocalgui2.py` — the confocal scan console (`ConfocalGui`).

Both modules are thin event handlers over an external "logic" collaborator.
The embedding models the logic layer as a plain record of the values the GUI
reads, the Qt spin boxes as value-plus-range records with the documented
clip-to-range `setValue` semantics, and each handler as a pure function from
the logic snapshot and the current widget state to the new widget state plus
the list of calls ("effects") it issues to the logic/save collaborators.
Real numbers from the Python source are modelled as rationals; Qt text
formatting of numeric labels is abstracted by storing the displayed quantity
itself.
-/

/-! ## Qt widget model

A `QSpinBox` models Qt's `QSpinBox` / `QDoubleSpinBox` / qudi's
`ScienDSpinBox` and also `QSlider`: a value together with its allowed range,
a signals-blocked flag and a unit suffix.  Per the Qt documentation,
`setValue` clips the requested value to the range `[lo, hi]` and emits a
`valueChanged` signal exactly when the stored value actually changes and
signals are not blocked; `setRange` re-clips the current value into the new
range.  (Decimal rounding of `QDoubleSpinBox` displays is not modelled; no
claim depends on it.) -/

structure QSpinBox where
  lo : ℚ
  hi : ℚ
  val : ℚ
  blocked : Bool
  suffix : String
deriving DecidableEq

/-- Clip a requested value `v` into the range `[lo, hi]` (Qt semantics). -/
def qclamp (lo hi v : ℚ) : ℚ := if v < lo then lo else if hi < v then hi else v

/-- `setValue`: clip to range and report whether a `valueChanged` signal is
emitted (it is emitted iff signals are not blocked and the stored value
changes). -/
def QSpinBox.setValue (sb : QSpinBox) (v : ℚ) : QSpinBox × Bool :=
  let c := qclamp sb.lo sb.hi v
  ({ sb with val := c }, if sb.blocked then false else if c = sb.val then false else true)

/-- `setRange`: replace the range and clip the current value into it. -/
def QSpinBox.setRange (sb : QSpinBox) (lo hi : ℚ) : QSpinBox :=
  { sb with lo := lo, hi := hi, val := qclamp lo hi sb.val }

/-- `setSuffix` (unit display). -/
def QSpinBox.setSuffix (sb : QSpinBox) (u : String) : QSpinBox :=
  { sb with suffix := u }

/-- `blockSignals(True)`. -/
def QSpinBox.block (sb : QSpinBox) : QSpinBox := { sb with blocked := true }

/-- `blockSignals(False)`. -/
def QSpinBox.unblock (sb : QSpinBox) : QSpinBox := { sb with blocked := false }

/-! ## Laser scanning module (`gui/LaserScanningGui.py`) -/

/-- Snapshot of the `LaserScanningLogic` collaborator as read by the GUI:
state string, current wavelength, auto-range bounds `intern_xmin` /
`intern_xmax`, histogram axis and data arrays, and the bin/bound getters. -/
structure ScanLogic where
  state : String
  current_wavelength : ℚ
  intern_xmin : ℚ
  intern_xmax : ℚ
  histogram_axis : List ℚ
  histogram : List ℚ
  sumhisto : List ℚ
  bins : ℚ
  min_wavelength : ℚ
  max_wavelength : ℚ
deriving DecidableEq

/-- Commands the GUI modules can issue to the logic collaborator
(spec section 6). -/
inductive Command where
  | start_scanning
  | stop_scanning
  | recalculate_histogram (bins xmin xmax : ℚ)
  | save_data
deriving DecidableEq

/-- Externally visible effects of the laser-scanning handlers: a command to
the logic layer, or an image-file export performed through the pyqtgraph
exporters. -/
inductive LsEffect where
  | cmd (c : Command)
  | export_svg (file : String)
  | export_png (file : String)
deriving DecidableEq

/-- The `SaveLogic` collaborator: resolves a directory path for a module
name (`get_path_for_module`). -/
structure SaveLogic where
  path_for_module : String → String

/-- Widget state of `LaserScanningGui`: start/stop button text, the three
parameter spin boxes, the numeric labels (modelled as the displayed quantity,
`none` for the `'xxx'` placeholder), the three plot curves as `(x, y)` data
pairs, and the `_save_PNG` flag. -/
structure LaserGuiState where
  start_stop_button_text : String
  bins_display : QSpinBox
  min_wavelength_display : QSpinBox
  max_wavelength_display : QSpinBox
  wavelength_label : Option ℚ
  auto_min_label : Option ℚ
  auto_max_label : Option ℚ
  curve1 : List ℚ × List ℚ
  curve2 : List ℚ × List ℚ
  curve3 : List ℚ × List ℚ
  save_PNG : Bool
deriving DecidableEq

/-- The frequency-axis transform computed in `updateData`:
`3.0e17/λ − 6.0e17/(get_max_wavelength() + get_min_wavelength())`; the
scientific literals are written out as integer numerals (3e17 and 6e17) so
that the definition evaluates by kernel reduction. -/
def frequency_transform (lmin lmax lam : ℚ) : ℚ :=
  300000000000000000 / lam - 600000000000000000 / (lmax + lmin)

/-- Widget state established by `initUI`: button text `'Start'`, bins box
with range `[1, 1e4]` and value `get_bins()` (clipped), min box with range
`[1, 1e6]` and value `get_min_wavelength()`, max box with range `[1, 1e4]`
and value `get_max_wavelength()`, placeholder labels, empty curves, and
`_save_PNG = True`. -/
def initLaserGui (logic : ScanLogic) : LaserGuiState :=
  { start_stop_button_text := "Start"
    bins_display := ⟨1, 10000, qclamp 1 10000 logic.bins, false, ""⟩
    min_wavelength_display := ⟨1, 1000000, qclamp 1 1000000 logic.min_wavelength, false, ""⟩
    max_wavelength_display := ⟨1, 10000, qclamp 1 10000 logic.max_wavelength, false, ""⟩
    wavelength_label := none
    auto_min_label := none
    auto_max_label := none
    curve1 := ([], [])
    curve2 := ([], [])
    curve3 := ([], [])
    save_PNG := true }

/-- `updateData`: reads the current wavelength, auto-range bounds, histogram
axis and data from the logic layer, repaints the three curves (curve 3
against the frequency axis), and sets the button text from the logic state.
It returns the logic snapshot unchanged and issues no command. -/
def updateData (logic : ScanLogic) (g : LaserGuiState) :
    ScanLogic × LaserGuiState × List LsEffect :=
  let x_axis := logic.histogram_axis
  let x_axis_hz := x_axis.map (frequency_transform logic.min_wavelength logic.max_wavelength)
  (logic,
   { g with
     wavelength_label := some logic.current_wavelength
     auto_min_label := some logic.intern_xmin
     auto_max_label := some logic.intern_xmax
     curve1 := (x_axis, logic.histogram)
     curve2 := (x_axis, logic.sumhisto)
     curve3 := (x_axis_hz, logic.histogram)
     start_stop_button_text := if logic.state = "running" then "Stop" else "Start" },
   [])

/-- `start_clicked`: if the logic state is `'running'`, set the button text
to `'Start'` and call `stop_scanning()`; otherwise set it to `'Stop'` and
call `start_scanning()`. -/
def start_clicked (logic : ScanLogic) (g : LaserGuiState) :
    LaserGuiState × List LsEffect :=
  if logic.state = "running" then
    ({ g with start_stop_button_text := "Start" }, [LsEffect.cmd Command.stop_scanning])
  else
    ({ g with start_stop_button_text := "Stop" }, [LsEffect.cmd Command.start_scanning])

/-- `recalculate_histogram` (GUI method): one call into the logic layer with
the current spin-box values as `bins`, `xmin`, `xmax`. -/
def recalculate_histogram (g : LaserGuiState) : List LsEffect :=
  [LsEffect.cmd (Command.recalculate_histogram g.bins_display.val
      g.min_wavelength_display.val g.max_wavelength_display.val)]

/-- `set_auto_range`: `setValue` the min/max spin boxes to the logic's
`intern_xmin` / `intern_xmax`, then call `recalculate_histogram`.  (The
`valueChanged` signals of these boxes are connected to nothing in this
module — only `editingFinished` is connected, which `setValue` does not
emit — so the emission flag is dropped.) -/
def set_auto_range (logic : ScanLogic) (g : LaserGuiState) :
    LaserGuiState × List LsEffect :=
  let g := { g with
    min_wavelength_display := (g.min_wavelength_display.setValue logic.intern_xmin).1 }
  let g := { g with
    max_wavelength_display := (g.max_wavelength_display.setValue logic.intern_xmax).1 }
  (g, recalculate_histogram g)

/-- `save_clicked`: resolve the save path for module `'LaserScanning'`,
build a timestamped filename (the `time.strftime` part is the `ts`
argument), export the plot as SVG, additionally as PNG when `_save_PNG` is
set, then call the logic's `save_data()`. -/
def save_clicked (slogic : SaveLogic) (ts : String) (g : LaserGuiState) : List LsEffect :=
  let filepath := slogic.path_for_module "LaserScanning"
  let filename := filepath ++ ts
  let exports :=
    if g.save_PNG then
      [LsEffect.export_svg (filename ++ ".svg"), LsEffect.export_png (filename ++ ".png")]
    else
      [LsEffect.export_svg (filename ++ ".svg")]
  exports ++ [LsEffect.cmd Command.save_data]

/-- The public operations of `LaserScanningGui` after activation, as far as
they touch the widget state modelled here.  `save_click`, `recalc`,
`show_win` and `resize` (`_update_plot_views`) do not modify any modelled
widget state. -/
inductive LsOp where
  | start_click (logic : ScanLogic)
  | save_click
  | recalc
  | auto_range (logic : ScanLogic)
  | update_data (logic : ScanLogic)
  | show_win
  | resize

/-- Widget-state transition of one public operation. -/
def lsStep : LsOp → LaserGuiState → LaserGuiState
  | .start_click logic, g => (start_clicked logic g).1
  | .save_click, g => g
  | .recalc, g => g
  | .auto_range logic, g => (set_auto_range logic g).1
  | .update_data logic, g => (updateData logic g).2.1
  | .show_win, g => g
  | .resize, g => g

/-- Widget states reachable through the module's interface: the state built
by `initUI` (for any logic snapshot), closed under the public operations. -/
inductive LsReachable : LaserGuiState → Prop
  | init (logic : ScanLogic) : LsReachable (initLaserGui logic)
  | step (op : LsOp) (g : LaserGuiState) : LsReachable g → LsReachable (lsStep op g)

/-! ### Concrete states for witnesses and counterexamples -/

/-- A benign concrete logic snapshot (idle, bounds 350–750 nm). -/
def scanLogic0 : ScanLogic :=
  { state := "idle"
    current_wavelength := 637
    intern_xmin := 400
    intern_xmax := 700
    histogram_axis := [400, 500, 600]
    histogram := [1, 2, 3]
    sumhisto := [4, 5, 6]
    bins := 200
    min_wavelength := 350
    max_wavelength := 750 }

/-- A logic snapshot whose auto-range maximum `intern_xmax = 20000` lies
above the max-wavelength spin box range `[1, 1e4]` set by `initUI`. -/
def scanLogicWide : ScanLogic :=
  { scanLogic0 with intern_xmin := 0.5, intern_xmax := 20000 }

/-- A concrete save-logic collaborator. -/
def saveLogic0 : SaveLogic := ⟨fun _ => "/data/"⟩

/-! ## Confocal module (`gui/confocal/confocalgui2.py`)

The confocal GUI keeps dictionaries of per-axis control widgets
(`axes_control_widgets`, `optimizer_settings_axes_widgets`) and of per-scan
dock widgets (`scan_2d_dockwidgets` / `scan_2d_images`, `scan_1d_dockwidgets`
/ `scan_1d_plots`).  Dictionaries are modelled as association lists; an
access to a missing key is a Python `KeyError`, and the use of a
never-assigned local variable is a `NameError`. -/

inductive PyError where
  | keyError
  | nameError
deriving DecidableEq

/-- A `valueChanged` widget signal, tagged with a widget description and the
newly stored value. -/
inductive WidgetSignal where
  | valueChanged (widget : String) (value : ℚ)
deriving DecidableEq

/-- Per-axis hardware constraints from the logic layer's constraints map. -/
structure AxisConstraints where
  min_resolution : ℚ
  max_resolution : ℚ
  min_value : ℚ
  max_value : ℚ
  unit : String
deriving DecidableEq

/-- The scanner-settings dict as consumed by `scanner_settings_updated`;
each `Option` field models presence of the corresponding key. -/
structure ScannerSettings where
  pixel_clock_frequency : Option ℚ
  backscan_speed : Option ℚ
  scan_resolution : Option (List (String × ℚ))
  scan_range : Option (List (String × (ℚ × ℚ)))
deriving DecidableEq

/-- One scan-data frame: axis name list and extent (under `data['axes']`),
physical unit, and the optional `'scan'` payload (numpy arrays are modelled
as flat rational lists). -/
structure Frame where
  names : List String
  extent : List (ℚ × ℚ)
  unit : String
  scan : Option (List ℚ)
deriving DecidableEq

/-- Snapshot of the `ConfocalLogic` collaborator as read by the GUI. -/
structure ConfLogic where
  scanner_settings : ScannerSettings
  scanner_constraints : List (String × AxisConstraints)
  scanner_position : List (String × ℚ)
  scan_data : List Frame
  scanner_axes_names : List String
deriving DecidableEq

/-- The row of control widgets kept per scan axis. -/
structure AxisWidgets where
  res_spinbox : QSpinBox
  min_spinbox : QSpinBox
  max_spinbox : QSpinBox
  slider : QSpinBox
  pos_spinbox : QSpinBox
deriving DecidableEq

/-- The optimizer-settings widgets kept per scan axis. -/
structure OptAxisWidgets where
  range_spinbox : QSpinBox
  res_spinbox : QSpinBox
deriving DecidableEq

/-- One 2-D scan dock: image item, image extent, and the colorbar label.
(`scan_2d_images` and `scan_2d_dockwidgets` are built over the same keys in
`_generate_scan_dockwidgets` / `_init_plots`, so they are merged into one
association list.) -/
structure Scan2dDock where
  image : List ℚ
  extent : List (ℚ × ℚ)
  colorbar_label : String
  colorbar_unit : String
deriving DecidableEq

/-- One 1-D scan dock: plot data and the left-axis label unit. -/
structure Scan1dDock where
  plot_data : List ℚ
  label_unit : String
deriving DecidableEq

/-- Widget state of `ConfocalGui`. -/
structure ConfGui where
  axes_control : List (String × AxisWidgets)
  optimizer_axes : List (String × OptAxisWidgets)
  ssd_pixel_clock : QSpinBox
  ssd_backscan_speed : QSpinBox
  scan_2d : List (String × Scan2dDock)
  scan_1d : List (String × Scan1dDock)
deriving DecidableEq

/-- Dictionary write `d[k] = f (d[k])`; keys not equal to `k` are kept. -/
def updateA {α : Type} (l : List (String × α)) (k : String) (f : α → α) :
    List (String × α) :=
  l.map (fun p => if p.1 = k then (p.1, f p.2) else p)

/-- Dictionary read `d[k]` (`none` models a Python `KeyError`). -/
def lookupA {α : Type} (l : List (String × α)) (k : String) : Option α :=
  match l with
  | [] => none
  | p :: rest => if p.1 = k then some p.2 else lookupA rest k

/-- `apply_scanner_constraints`, body of the loop for one axis: set the
value ranges of the axis-control spin boxes and slider, the optimizer range
and resolution boxes, and the unit suffixes.  Missing axis keys raise
`KeyError`. -/
def applyAxisConstraints (g : ConfGui) (axis : String) (c : AxisConstraints) :
    Except PyError ConfGui :=
  match lookupA g.axes_control axis, lookupA g.optimizer_axes axis with
  | some _, some _ =>
    let rlo : ℚ := if c.min_resolution < 2 then 2 else c.min_resolution
    let rhi : ℚ := if (2 ^ 31 - 1 : ℚ) < c.max_resolution then 2 ^ 31 - 1 else c.max_resolution
    .ok { g with
      axes_control := updateA g.axes_control axis (fun w =>
        { w with
          res_spinbox := w.res_spinbox.setRange rlo rhi
          min_spinbox := ((w.min_spinbox.setRange c.min_value c.max_value).setSuffix c.unit)
          max_spinbox := ((w.max_spinbox.setRange c.min_value c.max_value).setSuffix c.unit)
          pos_spinbox := ((w.pos_spinbox.setRange c.min_value c.max_value).setSuffix c.unit)
          slider := w.slider.setRange c.min_value c.max_value })
      optimizer_axes := updateA g.optimizer_axes axis (fun w =>
        { w with
          range_spinbox := ((w.range_spinbox.setRange 0 (c.max_value - c.min_value)).setSuffix c.unit)
          res_spinbox := w.res_spinbox.setRange rlo rhi }) }
  | _, _ => .error PyError.keyError

/-- `apply_scanner_constraints`: iterate the logic's constraints map. -/
def apply_scanner_constraints (logic : ConfLogic) (g : ConfGui) : Except PyError ConfGui :=
  go g logic.scanner_constraints
where
  go (g : ConfGui) : List (String × AxisConstraints) → Except PyError ConfGui
    | [] => .ok g
    | (a, c) :: rest =>
      match applyAxisConstraints g a c with
      | .error e => .error e
      | .ok g => go g rest

/-- Sequencing of handler steps that may fail, accumulating the widget
signals emitted so far (signals emitted before a raised error are kept). -/
def thenE (r : Except PyError ConfGui × List WidgetSignal)
    (f : ConfGui → Except PyError ConfGui × List WidgetSignal) :
    Except PyError ConfGui × List WidgetSignal :=
  match r with
  | (.error e, s) => (.error e, s)
  | (.ok g, s) => ((f g).1, s ++ (f g).2)

/-- `scanner_settings_updated`, `'pixel_clock_frequency'` branch: a plain
`setValue` on the settings-dialog box, signals not blocked. -/
def setPixelClock (g : ConfGui) : Option ℚ → Except PyError ConfGui × List WidgetSignal
  | some v =>
    let r := g.ssd_pixel_clock.setValue v
    (.ok { g with ssd_pixel_clock := r.1 },
     if r.2 then [WidgetSignal.valueChanged "pixel_clock_frequency" r.1.val] else [])
  | none => (.ok g, [])

/-- `scanner_settings_updated`, `'backscan_speed'` branch: a plain
`setValue` on the settings-dialog box, signals not blocked. -/
def setBackscanSpeed (g : ConfGui) : Option ℚ → Except PyError ConfGui × List WidgetSignal
  | some v =>
    let r := g.ssd_backscan_speed.setValue v
    (.ok { g with ssd_backscan_speed := r.1 },
     if r.2 then [WidgetSignal.valueChanged "backscan_speed" r.1.val] else [])
  | none => (.ok g, [])

/-- `scanner_settings_updated`, `'scan_resolution'` loop: for each listed
axis, block the resolution box's signals, `setValue`, unblock. -/
def setResolutionList (g : ConfGui) :
    List (String × ℚ) → Except PyError ConfGui × List WidgetSignal
  | [] => (.ok g, [])
  | (axis, res) :: rest =>
    match lookupA g.axes_control axis with
    | none => (.error PyError.keyError, [])
    | some w =>
      let r := w.res_spinbox.block.setValue res
      let sb := r.1.unblock
      let sigs := if r.2 then [WidgetSignal.valueChanged (axis ++ ":resolution") r.1.val] else []
      let g := { g with
        axes_control := updateA g.axes_control axis (fun ow => { ow with res_spinbox := sb }) }
      let rec2 := setResolutionList g rest
      (rec2.1, sigs ++ rec2.2)

/-- `scanner_settings_updated`, `'scan_range'` loop: for each listed axis,
block both range boxes' signals, `setValue` min then max, unblock both. -/
def setRangeList (g : ConfGui) :
    List (String × (ℚ × ℚ)) → Except PyError ConfGui × List WidgetSignal
  | [] => (.ok g, [])
  | (axis, range) :: rest =>
    match lookupA g.axes_control axis with
    | none => (.error PyError.keyError, [])
    | some w =>
      let rmin := w.min_spinbox.block.setValue range.1
      let rmax := w.max_spinbox.block.setValue range.2
      let sigs :=
        (if rmin.2 then [WidgetSignal.valueChanged (axis ++ ":min_range") rmin.1.val] else []) ++
        (if rmax.2 then [WidgetSignal.valueChanged (axis ++ ":max_range") rmax.1.val] else [])
      let g := { g with
        axes_control := updateA g.axes_control axis (fun ow =>
          { ow with min_spinbox := rmin.1.unblock, max_spinbox := rmax.1.unblock }) }
      let rec2 := setRangeList g rest
      (rec2.1, sigs ++ rec2.2)

/-- `scanner_settings_updated`: take the settings dict (or read it from the
logic when none is passed) and mirror it into the widgets — pixel clock and
backscan speed without signal blocking, per-axis resolutions and ranges with
signal blocking. -/
def scanner_settings_updated (logic : ConfLogic) (g : ConfGui)
    (settings : Option ScannerSettings) : Except PyError ConfGui × List WidgetSignal :=
  let s := settings.getD logic.scanner_settings
  thenE (setPixelClock g s.pixel_clock_frequency) fun g =>
  thenE (setBackscanSpeed g s.backscan_speed) fun g =>
  thenE (match s.scan_resolution with
         | some l => setResolutionList g l
         | none => (.ok g, [])) fun g =>
  (match s.scan_range with
   | some l => setRangeList g l
   | none => (.ok g, []))

/-- `scanner_position_updated` loop: for each axis in the position dict,
block the slider's and position box's signals, `setValue` both, unblock. -/
def setPositionList (g : ConfGui) :
    List (String × ℚ) → Except PyError ConfGui × List WidgetSignal
  | [] => (.ok g, [])
  | (axis, pos) :: rest =>
    match lookupA g.axes_control axis with
    | none => (.error PyError.keyError, [])
    | some w =>
      let rsl := w.slider.block.setValue pos
      let rpb := w.pos_spinbox.block.setValue pos
      let sigs :=
        (if rsl.2 then [WidgetSignal.valueChanged (axis ++ ":slider") rsl.1.val] else []) ++
        (if rpb.2 then [WidgetSignal.valueChanged (axis ++ ":position") rpb.1.val] else [])
      let g := { g with
        axes_control := updateA g.axes_control axis (fun ow =>
          { ow with slider := rsl.1.unblock, pos_spinbox := rpb.1.unblock }) }
      let rec2 := setPositionList g rest
      (rec2.1, sigs ++ rec2.2)

/-- `scanner_position_updated`: take the position dict (or read it from the
logic when none is passed) and mirror it into slider and position box with
signals blocked. -/
def scanner_position_updated (logic : ConfLogic) (g : ConfGui)
    (position : Option (List (String × ℚ))) : Except PyError ConfGui × List WidgetSignal :=
  setPositionList g (position.getD logic.scanner_position)

/-- The frame loop of `scan_data_updated`.  The loop reads and writes only
the 2-D and 1-D scan-dock dictionaries, so it is modelled as a function of
those two dictionaries.  `key?` is the Python local variable `key`: it is
assigned only inside the `if 'scan' in data:` branch of the two-axis case,
and it keeps its value across loop iterations; using it while still
unassigned is a `NameError`.  After the branch, the extent and colorbar
updates index `scan_2d_images` / `scan_2d_dockwidgets` with `key` whether or
not this frame assigned it. -/
def processFrames (s2 : List (String × Scan2dDock)) (s1 : List (String × Scan1dDock))
    (key? : Option String) :
    List Frame → Except PyError (List (String × Scan2dDock) × List (String × Scan1dDock))
  | [] => .ok (s2, s1)
  | d :: rest =>
    match d.names with
    | [a, b] =>
      let bound : Except PyError (List (String × Scan2dDock) × String) :=
        match d.scan with
        | some img =>
          let key := a ++ "," ++ b
          match lookupA s2 key with
          | none => .error PyError.keyError
          | some _ => .ok (updateA s2 key (fun dk => { dk with image := img }), key)
        | none =>
          match key? with
          | none => .error PyError.nameError
          | some key => .ok (s2, key)
      match bound with
      | .error e => .error e
      | .ok (s2, key) =>
        match lookupA s2 key with
        | none => .error PyError.keyError
        | some _ =>
          processFrames
            (updateA s2 key (fun dk =>
              { dk with extent := d.extent, colorbar_label := "scan data",
                        colorbar_unit := d.unit }))
            s1 (some key) rest
    | [a] =>
      let step1 : Except PyError (List (String × Scan1dDock)) :=
        match d.scan with
        | some v =>
          match lookupA s1 a with
          | none => .error PyError.keyError
          | some _ => .ok (updateA s1 a (fun dk => { dk with plot_data := v }))
        | none => .ok s1
      match step1 with
      | .error e => .error e
      | .ok s1 =>
        match lookupA s1 a with
        | none => .error PyError.keyError
        | some _ =>
          processFrames s2 (updateA s1 a (fun dk => { dk with label_unit := d.unit })) key? rest
    | _ => processFrames s2 s1 key? rest

/-- `scan_data_updated`: take the scan-data frame list (or read it from the
logic when none is passed) and repaint the dock widgets.  The handler reads
the logic layer but never writes it and issues no command; the command
trace it produces is empty. -/
def scan_data_updated (logic : ConfLogic) (g : ConfGui)
    (scan_data : Option (List Frame)) :
    Except PyError (ConfLogic × ConfGui) × List Command :=
  let frames := scan_data.getD logic.scan_data
  (match processFrames g.scan_2d g.scan_1d none frames with
   | .ok (s2, s1) => .ok (logic, { g with scan_2d := s2, scan_1d := s1 })
   | .error e => .error e,
   [])

/-- A keyboard event forwarded by `ConfocalMainWindow.keyPressEvent`. -/
structure KeyEvent where
  key : Int
  modifiers : Int
deriving DecidableEq

/-- `move_scanner_by_keyboard_event`: the body is `pass` (the navigation
logic is commented out), so the handler changes nothing and calls nothing. -/
def move_scanner_by_keyboard_event (logic : ConfLogic) (g : ConfGui) (event : KeyEvent) :
    ConfLogic × ConfGui × List Command :=
  (logic, g, [])

/-! ### Extraction helpers and concrete confocal states -/

/-- Whether an `Except` result is a success. -/
def isOkE {A : Type} : Except PyError A -> Bool
  | .ok _ => true
  | .error _ => false

/-- Resolution spin-box value of one axis after a handler run (`none` when
the run failed or the axis is absent). -/
def axisResVal (r : Except PyError ConfGui × List WidgetSignal) (axis : String) : Option ℚ :=
  match r.1 with
  | .ok g => (lookupA g.axes_control axis).map (fun w => w.res_spinbox.val)
  | .error _ => none

/-- Min-range spin-box value of one axis after a handler run. -/
def axisMinVal (r : Except PyError ConfGui × List WidgetSignal) (axis : String) : Option ℚ :=
  match r.1 with
  | .ok g => (lookupA g.axes_control axis).map (fun w => w.min_spinbox.val)
  | .error _ => none

/-- Max-range spin-box value of one axis after a handler run. -/
def axisMaxVal (r : Except PyError ConfGui × List WidgetSignal) (axis : String) : Option ℚ :=
  match r.1 with
  | .ok g => (lookupA g.axes_control axis).map (fun w => w.max_spinbox.val)
  | .error _ => none

/-- Fresh axis-control widget row as built by
`_generate_axes_control_widgets`: the resolution box gets the range
`[2, 2^31 − 1]`; the science boxes and slider start with a wide default. -/
def axisWidgetsRaw : AxisWidgets :=
  { res_spinbox := ⟨2, 2 ^ 31 - 1, 2, false, ""⟩
    min_spinbox := ⟨-1000000, 1000000, 0, false, ""⟩
    max_spinbox := ⟨-1000000, 1000000, 0, false, ""⟩
    slider := ⟨-1000000, 1000000, 0, false, ""⟩
    pos_spinbox := ⟨-1000000, 1000000, 0, false, ""⟩ }

/-- Fresh optimizer-settings widget row. -/
def optWidgetsRaw : OptAxisWidgets :=
  { range_spinbox := ⟨-1000000, 1000000, 0, false, ""⟩
    res_spinbox := ⟨2, 2 ^ 31 - 1, 2, false, ""⟩ }

/-- A freshly generated confocal widget state with one scan axis `'x'` and
no scan docks. -/
def confGuiRaw : ConfGui :=
  { axes_control := [("x", axisWidgetsRaw)]
    optimizer_axes := [("x", optWidgetsRaw)]
    ssd_pixel_clock := ⟨0, 1000000, 0, false, ""⟩
    ssd_backscan_speed := ⟨0, 1000000, 0, false, ""⟩
    scan_2d := []
    scan_1d := [] }

/-- A benign concrete confocal logic snapshot. -/
def confLogic0 : ConfLogic :=
  { scanner_settings := ⟨none, none, none, none⟩
    scanner_constraints := []
    scanner_position := []
    scan_data := []
    scanner_axes_names := ["x"] }

/-- A constraints map whose `'x'` axis admits neither resolution 100 nor the
range `[0, 10]`: resolutions `[200, 1000]`, values `[1, 5]`. -/
def confLogicC5 : ConfLogic :=
  { confLogic0 with scanner_constraints := [("x", ⟨200, 1000, 1, 5, "m"⟩)] }

/-- The widget state reached by running `apply_scanner_constraints` with the
`confLogicC5` constraints on the fresh widget state. -/
def confGuiC5 : ConfGui :=
  match apply_scanner_constraints confLogicC5 confGuiRaw with
  | .ok g => g
  | .error _ => confGuiRaw

/-- A confocal widget state with one 2-D scan dock for axes `'x'`, `'y'`. -/
def confGuiC9 : ConfGui :=
  { confGuiRaw with scan_2d := [("x,y", ⟨[], [(0, 1), (0, 1)], "", ""⟩)] }

/-- A two-axis frame carrying a `'scan'` payload (binds the loop key). -/
def frameWithScan : Frame :=
  { names := ["x", "y"], extent := [(0, 1), (0, 1)], unit := "c/s", scan := some [1, 2, 3, 4] }

/-- A two-axis frame without a `'scan'` payload. -/
def frameNoScan : Frame :=
  { names := ["x", "y"], extent := [(5, 6), (7, 8)], unit := "m", scan := none }

/-! ### Claims about the laser-scanning module -/

/-- Claim C1: for every wavelength `λ > 0` and bounds with `λmin + λmax > 0`,
the frequency-axis transform `f(λ) = 3e17/λ − 6e17/(λmin+λmax)` computed by
`updateData` is strictly decreasing in `λ`, and `updateData` plots curve 3
against exactly this transform of the logic layer's histogram axis, built
from the logic's min/max wavelengths, on every data update. -/
theorem updateData_frequency_transform_decreasing (logic : ScanLogic) (g : LaserGuiState)
    (lmin lmax l1 l2 : ℚ) (hsum : 0 < lmin + lmax) (h1 : 0 < l1) (h12 : l1 < l2) :
    frequency_transform lmin lmax l2 < frequency_transform lmin lmax l1 ∧
    (updateData logic g).2.1.curve3
      = (logic.histogram_axis.map
          (frequency_transform logic.min_wavelength logic.max_wavelength),
         logic.histogram) := by
  refine ⟨?_, rfl⟩
  unfold frequency_transform
  have h3 : (0 : ℚ) < 300000000000000000 := by norm_num
  exact sub_lt_sub_right (div_lt_div_of_pos_left h3 h1 h12) _

/-- Witness for C1 at `λmin = 350`, `λmax = 750`, `λ1 = 500 < λ2 = 600`. -/
theorem updateData_frequency_transform_decreasing_witness :
    frequency_transform 350 750 600 < frequency_transform 350 750 500 ∧
    (updateData scanLogic0 (initLaserGui scanLogic0)).2.1.curve3
      = (scanLogic0.histogram_axis.map
          (frequency_transform scanLogic0.min_wavelength scanLogic0.max_wavelength),
         scanLogic0.histogram) :=
  updateData_frequency_transform_decreasing scanLogic0 (initLaserGui scanLogic0)
    350 750 500 600 (by norm_num) (by norm_num) (by norm_num)

/-- Claim C2: `start_clicked` sets the button text to `'Start'` and issues
exactly one `stop_scanning()` call when the logic state is `'running'`, and
sets it to `'Stop'` and issues exactly one `start_scanning()` call
otherwise; the new text is computed locally from the state already read —
the effect trace holds exactly the one scanning command and no label
re-fetch. -/
theorem start_clicked_toggles_label_and_calls (logic : ScanLogic) (g : LaserGuiState) :
    (start_clicked logic g).1.start_stop_button_text
      = (if logic.state = "running" then "Start" else "Stop") ∧
    (start_clicked logic g).2
      = [LsEffect.cmd
          (if logic.state = "running" then Command.stop_scanning else Command.start_scanning)] := by
  by_cases h : logic.state = "running" <;> simp [start_clicked, h]

/-- Claim C3, counterexample: the auto-range handler does not set the max
wavelength box to the logic-reported `intern_xmax` for every reportable
value — `QDoubleSpinBox.setValue` clips to the range `[1, 1e4]` installed by
`initUI`, so `intern_xmax = 20000` yields a widget value of `10000`. -/
theorem set_auto_range_clips_counterexample :
    (set_auto_range scanLogicWide (initLaserGui scanLogicWide)).1.max_wavelength_display.val
      ≠ scanLogicWide.intern_xmax := by decide

/-- Claim C3, amended: `set_auto_range` sets the min/max wavelength boxes to
the logic-reported `intern_xmin` / `intern_xmax` clipped into the boxes'
ranges (hence exactly the reported values whenever those lie inside the
ranges), and issues exactly one `recalculate_histogram` call whose bounds
are those same (clipped) widget values. -/
theorem set_auto_range_sets_clipped_bounds (logic : ScanLogic) (g : LaserGuiState) :
    (set_auto_range logic g).1.min_wavelength_display.val
      = qclamp g.min_wavelength_display.lo g.min_wavelength_display.hi logic.intern_xmin ∧
    (set_auto_range logic g).1.max_wavelength_display.val
      = qclamp g.max_wavelength_display.lo g.max_wavelength_display.hi logic.intern_xmax ∧
    (set_auto_range logic g).2
      = [LsEffect.cmd (Command.recalculate_histogram g.bins_display.val
          (qclamp g.min_wavelength_display.lo g.min_wavelength_display.hi logic.intern_xmin)
          (qclamp g.max_wavelength_display.lo g.max_wavelength_display.hi logic.intern_xmax))] := by
  refine ⟨rfl, rfl, ?_⟩
  simp [set_auto_range, recalculate_histogram, QSpinBox.setValue]

/-- Claim C4: `save_clicked` exports the plot to a timestamped filename
under the path resolved by the save logic for module `'LaserScanning'` —
SVG plus PNG when PNG export is enabled (two image files), SVG alone when it
is disabled (one) — and afterwards calls the logic's `save_data()` exactly
once. -/
theorem save_clicked_exports_then_saves (slogic : SaveLogic) (ts : String) (g : LaserGuiState) :
    save_clicked slogic ts g
      = (if g.save_PNG then
          [LsEffect.export_svg (slogic.path_for_module "LaserScanning" ++ ts ++ ".svg"),
           LsEffect.export_png (slogic.path_for_module "LaserScanning" ++ ts ++ ".png"),
           LsEffect.cmd Command.save_data]
         else
          [LsEffect.export_svg (slogic.path_for_module "LaserScanning" ++ ts ++ ".svg"),
           LsEffect.cmd Command.save_data]) := by
  by_cases h : g.save_PNG <;> simp [save_clicked, h]

/-! Helper lemmas: every public operation preserves the `_save_PNG` flag. -/

theorem start_clicked_save_PNG (logic : ScanLogic) (g : LaserGuiState) :
    (start_clicked logic g).1.save_PNG = g.save_PNG := by
  by_cases h : logic.state = "running" <;> simp [start_clicked, h]

theorem set_auto_range_save_PNG (logic : ScanLogic) (g : LaserGuiState) :
    (set_auto_range logic g).1.save_PNG = g.save_PNG := rfl

theorem updateData_save_PNG (logic : ScanLogic) (g : LaserGuiState) :
    (updateData logic g).2.1.save_PNG = g.save_PNG := rfl

/-- Claim C8: `initUI` sets `_save_PNG = True` and no public operation of
the module ever changes it, so in every reachable widget state the flag is
`true` and every save invocation takes the two-file (SVG plus PNG) branch;
the one-file branch is unreachable through the module's interface. -/
theorem save_PNG_always_true (g : LaserGuiState) (h : LsReachable g)
    (slogic : SaveLogic) (ts : String) :
    g.save_PNG = true ∧
    save_clicked slogic ts g
      = [LsEffect.export_svg (slogic.path_for_module "LaserScanning" ++ ts ++ ".svg"),
         LsEffect.export_png (slogic.path_for_module "LaserScanning" ++ ts ++ ".png"),
         LsEffect.cmd Command.save_data] := by
  have hflag : g.save_PNG = true := by
    induction h with
    | init logic => rfl
    | step op g hg ih =>
      cases op with
      | start_click logic => exact (start_clicked_save_PNG logic g).trans ih
      | save_click => exact ih
      | recalc => exact ih
      | auto_range logic => exact (set_auto_range_save_PNG logic g).trans ih
      | update_data logic => exact (updateData_save_PNG logic g).trans ih
      | show_win => exact ih
      | resize => exact ih
  exact ⟨hflag, by simp [save_clicked, hflag]⟩

/-- Witness for C8 at the freshly activated state. -/
theorem save_PNG_always_true_witness :
    (initLaserGui scanLogic0).save_PNG = true ∧
    save_clicked saveLogic0 "2026-10-12" (initLaserGui scanLogic0)
      = [LsEffect.export_svg (saveLogic0.path_for_module "LaserScanning" ++ "2026-10-12" ++ ".svg"),
         LsEffect.export_png (saveLogic0.path_for_module "LaserScanning" ++ "2026-10-12" ++ ".png"),
         LsEffect.cmd Command.save_data] :=
  save_PNG_always_true (initLaserGui scanLogic0) (LsReachable.init scanLogic0)
    saveLogic0 "2026-10-12"

/-! ### Helper lemmas for the confocal handlers -/

/-- Writing a key through `updateA` is observed by `lookupA` of that key. -/
theorem lookup_updateA {α : Type} (l : List (String × α)) (k : String) (f : α → α) :
    lookupA (updateA l k f) k = (lookupA l k).map f := by
  induction l with
  | nil => rfl
  | cons p rest ih =>
    obtain ⟨k1, v1⟩ := p
    by_cases h : k1 = k
    · simp [updateA, lookupA, h]
    · simp only [updateA, List.map_cons, if_neg h, lookupA]
      exact ih

/-- A blocked `setValue` never reports a `valueChanged` emission. -/
theorem setValue_blocked_no_emit (sb : QSpinBox) (v : ℚ) :
    (sb.block.setValue v).2 = false := rfl

/-- The `'scan_resolution'` loop emits no widget signal: every `setValue`
is wrapped in `blockSignals`. -/
theorem setResolutionList_no_signals (l : List (String × ℚ)) :
    ∀ g : ConfGui, (setResolutionList g l).2 = [] := by
  induction l with
  | nil => intro g; rfl
  | cons p rest ih =>
    intro g
    cases hl : lookupA g.axes_control p.1 with
    | none => simp [setResolutionList, hl]
    | some w => simp [setResolutionList, hl, setValue_blocked_no_emit, ih]

/-- The `'scan_range'` loop emits no widget signal. -/
theorem setRangeList_no_signals (l : List (String × (ℚ × ℚ))) :
    ∀ g : ConfGui, (setRangeList g l).2 = [] := by
  induction l with
  | nil => intro g; rfl
  | cons p rest ih =>
    intro g
    cases hl : lookupA g.axes_control p.1 with
    | none => simp [setRangeList, hl]
    | some w => simp [setRangeList, hl, setValue_blocked_no_emit, ih]

/-- The position-mirroring loop emits no widget signal. -/
theorem setPositionList_no_signals (l : List (String × ℚ)) :
    ∀ g : ConfGui, (setPositionList g l).2 = [] := by
  induction l with
  | nil => intro g; rfl
  | cons p rest ih =>
    intro g
    cases hl : lookupA g.axes_control p.1 with
    | none => simp [setPositionList, hl]
    | some w => simp [setPositionList, hl, setValue_blocked_no_emit, ih]

/-- Signal trace of a `thenE` sequencing whose both sides are silent. -/
theorem thenE_no_signals (r : Except PyError ConfGui × List WidgetSignal)
    (f : ConfGui → Except PyError ConfGui × List WidgetSignal)
    (hr : r.2 = []) (hf : ∀ g : ConfGui, (f g).2 = []) :
    (thenE r f).2 = [] := by
  obtain ⟨r1, r2⟩ := r
  cases r1 with
  | ok g => simp_all [thenE]
  | error e => simp_all [thenE]

/-! ### Claims about the confocal module -/

/-- Claim C5, counterexample: with the `'x'`-axis hardware constraints
`min_resolution = 200`, `max_resolution = 1000`, `min_value = 1`,
`max_value = 5` applied by `apply_scanner_constraints`, a settings update
with `scan_resolution = 100` and `scan_range = [0, 10]` leaves the widgets
at the clipped values `200`, `1`, `5` — not at `100`, `0`, `10` as the claim
states for every settings dict. -/
theorem scanner_settings_not_exact_counterexample :
    axisResVal (scanner_settings_updated confLogicC5 confGuiC5
      (some ⟨none, none, some [("x", 100)], some [("x", (0, 10))]⟩)) "x" ≠ some 100 ∧
    axisMinVal (scanner_settings_updated confLogicC5 confGuiC5
      (some ⟨none, none, some [("x", 100)], some [("x", (0, 10))]⟩)) "x" ≠ some 0 ∧
    axisMaxVal (scanner_settings_updated confLogicC5 confGuiC5
      (some ⟨none, none, some [("x", 100)], some [("x", (0, 10))]⟩)) "x" ≠ some 10 := by
  decide

/-- Claim C5, amended: for an axis present in the axis-control widgets, a
settings update carrying `scan_resolution = 100` and `scan_range = [0, 10]`
for that axis mirrors into the resolution, min-range and max-range widgets
the values clipped into the widgets' ranges (as installed by
`apply_scanner_constraints`); they equal exactly `100`, `0` and `10`
precisely when those ranges admit them. -/
theorem scanner_settings_mirror_clipped (logic : ConfLogic) (g : ConfGui) (axis : String)
    (w : AxisWidgets) (pc bs : Option ℚ)
    (h : lookupA g.axes_control axis = some w) :
    axisResVal (scanner_settings_updated logic g
        (some ⟨pc, bs, some [(axis, 100)], some [(axis, (0, 10))]⟩)) axis
      = some (qclamp w.res_spinbox.lo w.res_spinbox.hi 100) ∧
    axisMinVal (scanner_settings_updated logic g
        (some ⟨pc, bs, some [(axis, 100)], some [(axis, (0, 10))]⟩)) axis
      = some (qclamp w.min_spinbox.lo w.min_spinbox.hi 0) ∧
    axisMaxVal (scanner_settings_updated logic g
        (some ⟨pc, bs, some [(axis, 100)], some [(axis, (0, 10))]⟩)) axis
      = some (qclamp w.max_spinbox.lo w.max_spinbox.hi 10) := by
  cases pc <;> cases bs <;>
    simp [scanner_settings_updated, thenE, setPixelClock, setBackscanSpeed,
      setResolutionList, setRangeList, axisResVal, axisMinVal, axisMaxVal,
      h, lookup_updateA, QSpinBox.setValue, QSpinBox.block, QSpinBox.unblock]

/-- Witness for C5 on the fresh one-axis widget state. -/
theorem scanner_settings_mirror_clipped_witness :
    axisResVal (scanner_settings_updated confLogic0 confGuiRaw
        (some ⟨none, none, some [("x", 100)], some [("x", (0, 10))]⟩)) "x"
      = some (qclamp axisWidgetsRaw.res_spinbox.lo axisWidgetsRaw.res_spinbox.hi 100) ∧
    axisMinVal (scanner_settings_updated confLogic0 confGuiRaw
        (some ⟨none, none, some [("x", 100)], some [("x", (0, 10))]⟩)) "x"
      = some (qclamp axisWidgetsRaw.min_spinbox.lo axisWidgetsRaw.min_spinbox.hi 0) ∧
    axisMaxVal (scanner_settings_updated confLogic0 confGuiRaw
        (some ⟨none, none, some [("x", 100)], some [("x", (0, 10))]⟩)) "x"
      = some (qclamp axisWidgetsRaw.max_spinbox.lo axisWidgetsRaw.max_spinbox.hi 10) :=
  scanner_settings_mirror_clipped confLogic0 confGuiRaw "x" axisWidgetsRaw none none rfl

/-- Claim C6: the data-update handlers only read the logic layer and repaint
display items.  `updateData` returns the logic snapshot unchanged, issues no
command, repaints exactly the three curves (and labels/button text) and
leaves the spin boxes and `_save_PNG` untouched; `scan_data_updated` issues
no command, returns the logic unchanged, and leaves all control widgets
(axis rows, optimizer rows, settings-dialog boxes) untouched. -/
theorem data_update_handlers_pure_read (slog : ScanLogic) (g : LaserGuiState)
    (cl : ConfLogic) (cg : ConfGui) (frames : Option (List Frame))
    (cl2 : ConfLogic) (cg2 : ConfGui)
    (h : (scan_data_updated cl cg frames).1 = .ok (cl2, cg2)) :
    (updateData slog g).1 = slog ∧
    (updateData slog g).2.2 = [] ∧
    (updateData slog g).2.1.bins_display = g.bins_display ∧
    (updateData slog g).2.1.min_wavelength_display = g.min_wavelength_display ∧
    (updateData slog g).2.1.max_wavelength_display = g.max_wavelength_display ∧
    (updateData slog g).2.1.save_PNG = g.save_PNG ∧
    (updateData slog g).2.1.curve1 = (slog.histogram_axis, slog.histogram) ∧
    (updateData slog g).2.1.curve2 = (slog.histogram_axis, slog.sumhisto) ∧
    (updateData slog g).2.1.curve3
      = (slog.histogram_axis.map (frequency_transform slog.min_wavelength slog.max_wavelength),
         slog.histogram) ∧
    (scan_data_updated cl cg frames).2 = [] ∧
    cl2 = cl ∧
    cg2.axes_control = cg.axes_control ∧
    cg2.optimizer_axes = cg.optimizer_axes ∧
    cg2.ssd_pixel_clock = cg.ssd_pixel_clock ∧
    cg2.ssd_backscan_speed = cg.ssd_backscan_speed := by
  refine ⟨rfl, rfl, rfl, rfl, rfl, rfl, rfl, rfl, rfl, rfl, ?_⟩
  simp only [scan_data_updated] at h
  split at h
  · cases h
    exact ⟨rfl, rfl, rfl, rfl, rfl⟩
  · exact Except.noConfusion h

/-- Witness for C6 with an empty frame list. -/
theorem data_update_handlers_pure_read_witness :
    (updateData scanLogic0 (initLaserGui scanLogic0)).1 = scanLogic0 ∧
    (updateData scanLogic0 (initLaserGui scanLogic0)).2.2 = [] ∧
    (updateData scanLogic0 (initLaserGui scanLogic0)).2.1.bins_display
      = (initLaserGui scanLogic0).bins_display ∧
    (updateData scanLogic0 (initLaserGui scanLogic0)).2.1.min_wavelength_display
      = (initLaserGui scanLogic0).min_wavelength_display ∧
    (updateData scanLogic0 (initLaserGui scanLogic0)).2.1.max_wavelength_display
      = (initLaserGui scanLogic0).max_wavelength_display ∧
    (updateData scanLogic0 (initLaserGui scanLogic0)).2.1.save_PNG
      = (initLaserGui scanLogic0).save_PNG ∧
    (updateData scanLogic0 (initLaserGui scanLogic0)).2.1.curve1
      = (scanLogic0.histogram_axis, scanLogic0.histogram) ∧
    (updateData scanLogic0 (initLaserGui scanLogic0)).2.1.curve2
      = (scanLogic0.histogram_axis, scanLogic0.sumhisto) ∧
    (updateData scanLogic0 (initLaserGui scanLogic0)).2.1.curve3
      = (scanLogic0.histogram_axis.map
          (frequency_transform scanLogic0.min_wavelength scanLogic0.max_wavelength),
         scanLogic0.histogram) ∧
    (scan_data_updated confLogic0 confGuiRaw (some [])).2 = [] ∧
    confLogic0 = confLogic0 ∧
    confGuiRaw.axes_control = confGuiRaw.axes_control ∧
    confGuiRaw.optimizer_axes = confGuiRaw.optimizer_axes ∧
    confGuiRaw.ssd_pixel_clock = confGuiRaw.ssd_pixel_clock ∧
    confGuiRaw.ssd_backscan_speed = confGuiRaw.ssd_backscan_speed :=
  data_update_handlers_pure_read scanLogic0 (initLaserGui scanLogic0)
    confLogic0 confGuiRaw (some []) confLogic0 confGuiRaw rfl

/-- Claim C7: the keyboard handler `move_scanner_by_keyboard_event` is a
no-op — its body is `pass` — so for every keyboard event it performs no
backend call and leaves the scanner logic and every widget unchanged. -/
theorem keyboard_handler_noop (logic : ConfLogic) (g : ConfGui) (e : KeyEvent) :
    move_scanner_by_keyboard_event logic g e = (logic, g, []) := rfl

/-- Claim C9, counterexample: a two-axis frame without a `'scan'` entry does
not always make `scan_data_updated` fail — when an earlier two-axis frame in
the same update already assigned the loop variable `key`, the handler
completes without error (silently reusing the stale key for the extent and
colorbar updates). -/
theorem scan_data_stale_key_counterexample :
    frameNoScan.names.length = 2 ∧ frameNoScan.scan = none ∧
    isOkE (scan_data_updated confLogic0 confGuiC9
      (some [frameWithScan, frameNoScan])).1 = true := by
  decide

/-- Claim C9, amended: the dock-widget key used by the extent and colorbar
updates is assigned only inside the branch requiring a `'scan'` entry, so
`scan_data_updated` fails with an unbound-variable (`NameError`) whenever a
two-axis frame without `'scan'` is processed before any key-assigning frame
— in particular whenever the first frame is such a frame; if an earlier
two-axis `'scan'` frame assigned the key, no error is raised but the stale
key is reused. -/
theorem scan_data_unbound_key_error (logic : ConfLogic) (g : ConfGui)
    (a b : String) (ext : List (ℚ × ℚ)) (u : String) (rest : List Frame) :
    (scan_data_updated logic g
      (some (({ names := [a, b], extent := ext, unit := u, scan := none } : Frame) :: rest))).1
      = .error PyError.nameError := rfl

/-- Claim C10, counterexample: `scanner_settings_updated` does not block
signals around every `setValue` — the pixel-clock-frequency box is set
without blocking, so a settings dict carrying `pixel_clock_frequency = 5`
makes the mirroring emit a `valueChanged` signal. -/
theorem pixel_clock_update_emits_signal :
    (scanner_settings_updated confLogic0 confGuiRaw
      (some ⟨some 5, none, none, none⟩)).2
      = [WidgetSignal.valueChanged "pixel_clock_frequency" 5] ∧
    (scanner_settings_updated confLogic0 confGuiRaw
      (some ⟨some 5, none, none, none⟩)).2 ≠ [] := by
  decide

/-- Claim C10, amended: the per-axis mirroring is signal-blocked — for any
settings dict without the `pixel_clock_frequency` and `backscan_speed`
keys, `scanner_settings_updated` emits no widget signal, and
`scanner_position_updated` never emits one — so the mirroring triggers no
echo command back to the logic layer; only the unblocked pixel-clock and
backscan-speed `setValue` calls can emit a signal (which is connected to
nothing in this module). -/
theorem blocked_mirroring_emits_no_signals (logic : ConfLogic) (g : ConfGui)
    (pos : Option (List (String × ℚ))) (s : ScannerSettings)
    (hpc : s.pixel_clock_frequency = none) (hbs : s.backscan_speed = none) :
    (scanner_settings_updated logic g (some s)).2 = [] ∧
    (scanner_position_updated logic g pos).2 = [] := by
  constructor
  · simp only [scanner_settings_updated, Option.getD_some, hpc, hbs]
    refine thenE_no_signals _ _ rfl (fun g1 => ?_)
    refine thenE_no_signals _ _ rfl (fun g2 => ?_)
    refine thenE_no_signals _ _ ?_ (fun g3 => ?_)
    · cases s.scan_resolution with
      | none => rfl
      | some l => exact setResolutionList_no_signals l g2
    · cases s.scan_range with
      | none => rfl
      | some l => exact setRangeList_no_signals l g3
  · exact setPositionList_no_signals _ g

/-- Witness for C10 on a concrete blocked-only settings dict and position. -/
theorem blocked_mirroring_emits_no_signals_witness :
    (scanner_settings_updated confLogic0 confGuiRaw
      (some ⟨none, none, some [("x", 50)], some [("x", (1, 2))]⟩)).2 = [] ∧
    (scanner_position_updated confLogic0 confGuiRaw (some [("x", 3)])).2 = [] :=
  blocked_mirroring_emits_no_signals confLogic0 confGuiRaw (some [("x", 3)])
    ⟨none, none, some [("x", 50)], some [("x", (1, 2))]⟩ rfl rfl
